import Mathlib

/-!
Verification development for the duoload vocabulary-transfer program.

The definitions below are a shallow embedding of the Rust sources:
`src/transfer/duplicates.rs`, `src/transfer/processor.rs`,
`src/duocards/models.rs`, `src/duocards/deck.rs`, `src/duocards/client.rs`,
`src/output/json.rs`, `src/output/anki.rs`, `src/error.rs` and `src/main.rs`.
Hash sets are modelled as lists (only membership is observed), the
inter-page delay is not modelled (it changes no observable data), and
string payloads inside error variants are elided: only the error kind is
observable to the program's callers.
-/

namespace Duoload

/-- LearningStatus from src/duocards/models.rs. -/
inductive LearningStatus where
  | new
  | learning
  | known
deriving DecidableEq, Repr

/-- VocabularyCard from src/duocards/models.rs (word, translation, example, status). -/
structure VocabularyCard where
  word : String
  translation : String
  «example» : Option String
  status : LearningStatus
deriving DecidableEq, Repr

/-- PageInfo from src/duocards/models.rs. -/
structure PageInfo where
  end_cursor : Option String
  has_next_page : Bool
deriving DecidableEq, Repr

/-- Card from src/duocards/models.rs. The JSON-only fields `waiting` and
`svg` are never read by any code modelled here and are omitted. -/
structure Card where
  id : String
  front : String
  back : String
  hint : Option String
  known_count : Int
  typename : String
deriving DecidableEq, Repr

/-- CardEdge from src/duocards/models.rs. -/
structure CardEdge where
  node : Card
  cursor : String
deriving DecidableEq, Repr

/-- CardConnection from src/duocards/models.rs. -/
structure CardConnection where
  edges : List CardEdge
  page_info : PageInfo
deriving DecidableEq, Repr

/-- Deck (the GraphQL node) from src/duocards/models.rs. -/
structure DeckNode where
  typename : String
  cards : CardConnection
  id : String
deriving DecidableEq, Repr

/-- ResponseData from src/duocards/models.rs. -/
structure ResponseData where
  node : DeckNode
deriving DecidableEq, Repr

/-- DuocardsResponse from src/duocards/models.rs; the `extensions.releaseId`
field is never read by the modelled code and is omitted. -/
structure DuocardsResponse where
  data : ResponseData
deriving DecidableEq, Repr

/-- From<Card> for VocabularyCard in src/duocards/models.rs: the
`known_count` thresholds decide the learning status. -/
def VocabularyCard.fromCard (card : Card) : VocabularyCard :=
  { word := card.front
    translation := card.back
    «example» := card.hint
    status :=
      if card.known_count ≥ 5 then LearningStatus.known
      else if card.known_count > 0 then LearningStatus.learning
      else LearningStatus.new }

/-- convert_to_vocabulary_cards from src/duocards/client.rs (the test client
in src/transfer/processor.rs computes the same map edge-wise). -/
def convert_to_vocabulary_cards (response : DuocardsResponse) : List VocabularyCard :=
  response.data.node.cards.edges.map (fun edge => VocabularyCard.fromCard edge.node)

/-- DeckIdError from src/error.rs; the four kinds, message payloads elided. -/
inductive DeckIdError where
  | invalidBase64
  | invalidFormat
  | invalidUuid
  | notUuidV4
deriving DecidableEq, Repr

/-- DuoloadError from src/error.rs; variants reachable in the modelled code,
message payloads elided. -/
inductive DuoloadError where
  | io
  | api
  | deckId (e : DeckIdError)
  | other
  | ankiOutputNotSupported
deriving DecidableEq, Repr

/-- DuplicateHandler.try_remember from src/transfer/duplicates.rs:
`!self.processed_words.insert(word)` — returns true when the word was
already present, and inserts it when it was not. The HashSet is modelled
as the list of inserted words. -/
def try_remember (processed_words : List String) (word : String) :
    Bool × List String :=
  if word ∈ processed_words then (true, processed_words)
  else (false, word :: processed_words)

/-- JsonOutputBuilder state from src/output/json.rs (the `start_time`
field only feeds a log message and is omitted). -/
structure JsonOutputBuilder where
  cards : List VocabularyCard
  existing_words : List String
deriving DecidableEq, Repr

/-- JsonOutputBuilder::add_note from src/output/json.rs. -/
def JsonOutputBuilder.add_note (b : JsonOutputBuilder) (card : VocabularyCard) :
    Bool × JsonOutputBuilder :=
  if card.word ∈ b.existing_words then (false, b)
  else (true, { cards := b.cards ++ [card], existing_words := card.word :: b.existing_words })

/-- VocabularyNote from src/anki/note.rs. -/
structure VocabularyNote where
  word : String
  translation : String
  «example» : Option String
  tags : List String
deriving DecidableEq, Repr

/-- From<VocabularyCard> for VocabularyNote in src/anki/note.rs. -/
def VocabularyNote.fromCard (card : VocabularyCard) : VocabularyNote :=
  { word := card.word
    translation := card.translation
    «example» := card.«example»
    tags :=
      match card.status with
      | LearningStatus.new => ["duoload_new"]
      | LearningStatus.learning => ["duoload_learning"]
      | LearningStatus.known => ["duoload_known"] }

/-- An Anki note as built by genanki: its ordered field values and tags.
Note::new only checks the field count against the model, which is always
3 = 3 here, so the construction is total. -/
structure AnkiNote where
  fields : List String
  tags : List String
deriving DecidableEq, Repr

/-- VocabularyNote::to_anki_note from src/anki/note.rs. -/
def VocabularyNote.to_anki_note (n : VocabularyNote) : AnkiNote :=
  { fields := [n.word, n.translation, n.«example».getD ""], tags := n.tags }

/-- The genanki Deck as observed by this program: the notes added so far. -/
structure AnkiDeck where
  notes : List AnkiNote
deriving DecidableEq, Repr

/-- AnkiPackageBuilder state from src/output/anki.rs. -/
structure AnkiPackageBuilder where
  deck : AnkiDeck
  existing_words : List String
deriving DecidableEq, Repr

/-- AnkiPackageBuilder::add_note from src/output/anki.rs. -/
def AnkiPackageBuilder.add_note (b : AnkiPackageBuilder) (vocab_card : VocabularyCard) :
    Bool × AnkiPackageBuilder :=
  if vocab_card.word ∈ b.existing_words then (false, b)
  else
    (true,
      { deck := { notes := b.deck.notes ++ [(VocabularyNote.fromCard vocab_card).to_anki_note] }
        existing_words := vocab_card.word :: b.existing_words })

/-- OutputDestination from src/output/mod.rs. -/
inductive OutputDestination where
  | writer
  | file (path : String)
deriving DecidableEq, Repr

/-- AnkiPackageBuilder::write from src/output/anki.rs. The external
`deck.write_to_file` call is abstracted by its outcome
`file_write_result`; `writer_bytes` is the stream destination's content,
returned so that (non-)writing to it is observable. A `write_to_file`
failure is wrapped into an anyhow error (`DuoloadError.other`). -/
def AnkiPackageBuilder.write (_b : AnkiPackageBuilder) (dest : OutputDestination)
    (file_write_result : Except String Unit) (writer_bytes : List Nat) :
    Except DuoloadError Unit × List Nat :=
  match dest with
  | OutputDestination.writer => (Except.error DuoloadError.ankiOutputNotSupported, writer_bytes)
  | OutputDestination.file _ =>
    match file_write_result with
    | Except.ok _ => (Except.ok (), writer_bytes)
    | Except.error _ => (Except.error DuoloadError.other, writer_bytes)

/-- TransferStats from src/transfer/processor.rs. -/
structure TransferStats where
  total_cards : Nat
  duplicates : Nat
deriving DecidableEq, Repr

/-- should_continue from the page-limit policy
(TestDuocardsClient::should_continue in src/transfer/processor.rs):
`current_page <= limit` when a limit is configured, else true. -/
def should_continue (page_limit : Option Nat) (current_page : Nat) : Bool :=
  match page_limit with
  | some limit => current_page ≤ limit
  | none => true

/-- The observable state threaded through one run of
TransferProcessorWithBuilder::process: the stats and dedup set fields of
the processor, the sink (`builder`) state, plus the traces a caller of
the collaborators can observe — the records passed to `add_note` in
order, the booleans those calls returned, the number of `fetch_page`
calls, and the pagination cursor. -/
structure IterState (σ : Type) where
  stats : TransferStats
  processed_words : List String
  sink : σ
  sink_adds : List VocabularyCard
  add_results : List Bool
  fetch_count : Nat
  cursor : Option String
deriving DecidableEq, Repr

/-- The per-record loop of TransferProcessorWithBuilder::process
(src/transfer/processor.rs, the `for card in cards` body): dedup check
first, then `add_note`, counting stats. Returns the state reached and
the first `add_note` error if one occurred (the `?` operator aborts the
whole run there). -/
def process_cards {σ : Type} (addFn : σ → VocabularyCard → Except DuoloadError (Bool × σ)) :
    IterState σ → List VocabularyCard → IterState σ × Option DuoloadError
  | st, [] => (st, none)
  | st, card :: rest =>
    match try_remember st.processed_words card.word with
    | (true, s) =>
      process_cards addFn
        { st with
          stats := { st.stats with duplicates := st.stats.duplicates + 1 }
          processed_words := s } rest
    | (false, s) =>
      match addFn st.sink card with
      | Except.error e =>
        ({ st with processed_words := s, sink_adds := st.sink_adds ++ [card] }, some e)
      | Except.ok (added, sink') =>
        process_cards addFn
          { st with
            processed_words := s
            sink := sink'
            sink_adds := st.sink_adds ++ [card]
            add_results := st.add_results ++ [added]
            stats :=
              if added then { st.stats with total_cards := st.stats.total_cards + 1 }
              else st.stats } rest

/-- How one pipeline loop can end: a normal exit (page limit reached or
last page had no next page), a propagated fetch/add error, or running
out of scripted responses (the test client panics there; the real client
can always issue another request). -/
inductive LoopOutcome (σ : Type) where
  | done (st : IterState σ)
  | failed (e : DuoloadError) (st : IterState σ)
  | exhausted (st : IterState σ)
deriving DecidableEq, Repr

/-- The paging loop of TransferProcessorWithBuilder::process
(src/transfer/processor.rs lines 81–133). The record source is modelled
as the list of successive `fetch_page` outcomes, consumed in order — the
cursor is threaded exactly as in the source but the scripted responses
do not depend on it, matching TestDuocardsClient. `page_count` is the
value before the `page_count += 1` at the top of the loop body. -/
def process_loop {σ : Type} (addFn : σ → VocabularyCard → Except DuoloadError (Bool × σ))
    (page_limit : Option Nat) :
    List (Except DuoloadError DuocardsResponse) → Nat → IterState σ → LoopOutcome σ
  | responses, page_count, st =>
    if should_continue page_limit (page_count + 1) = false then LoopOutcome.done st
    else
      match responses with
      | [] => LoopOutcome.exhausted st
      | Except.error e :: _ =>
        LoopOutcome.failed e { st with fetch_count := st.fetch_count + 1 }
      | Except.ok response :: rest =>
        let st1 : IterState σ := { st with fetch_count := st.fetch_count + 1 }
        let cards := convert_to_vocabulary_cards response
        match process_cards addFn st1 cards with
        | (st2, some e) => LoopOutcome.failed e st2
        | (st2, none) =>
          if response.data.node.cards.page_info.has_next_page = false then LoopOutcome.done st2
          else
            process_loop addFn page_limit rest (page_count + 1)
              { st2 with cursor := response.data.node.cards.page_info.end_cursor }

/-- Result of a whole `process` call: final state, the propagated error
if any, whether `write_output` (the sink finalize step) was invoked, and
whether the scripted responses ran out. -/
structure ProcessResult (σ : Type) where
  state : IterState σ
  error : Option DuoloadError
  finalized : Bool
  exhausted : Bool
deriving DecidableEq, Repr

/-- The zeroed starting state of a run (stats default, empty dedup set,
cursor None, page_count 0). -/
def initState {σ : Type} (sink0 : σ) : IterState σ :=
  { stats := { total_cards := 0, duplicates := 0 }
    processed_words := []
    sink := sink0
    sink_adds := []
    add_results := []
    fetch_count := 0
    cursor := none }

/-- TransferProcessorWithBuilder::process in full: run the paging loop
from a fresh state, then on normal loop exit call `write_output` (the
finalize step, abstracted by `writeFn` on the final sink state); a loop
error returns before `write_output`. -/
def process {σ : Type} (addFn : σ → VocabularyCard → Except DuoloadError (Bool × σ))
    (writeFn : σ → Except DuoloadError Unit) (page_limit : Option Nat)
    (responses : List (Except DuoloadError DuocardsResponse)) (sink0 : σ) :
    ProcessResult σ :=
  match process_loop addFn page_limit responses 0 (initState sink0) with
  | LoopOutcome.done st =>
    match writeFn st.sink with
    | Except.ok _ => { state := st, error := none, finalized := true, exhausted := false }
    | Except.error e => { state := st, error := some e, finalized := true, exhausted := false }
  | LoopOutcome.failed e st =>
    { state := st, error := some e, finalized := false, exhausted := false }
  | LoopOutcome.exhausted st =>
    { state := st, error := none, finalized := false, exhausted := true }

/-- Value of one character of the standard base64 alphabet
(A–Z, a–z, 0–9, '+', '/'), as in the base64 crate's STANDARD engine. -/
def b64Value (c : Char) : Option Nat :=
  if 'A' ≤ c ∧ c ≤ 'Z' then some (c.toNat - 65)
  else if 'a' ≤ c ∧ c ≤ 'z' then some (c.toNat - 71)
  else if '0' ≤ c ∧ c ≤ '9' then some (c.toNat + 4)
  else if c = '+' then some 62
  else if c = '/' then some 63
  else none

/-- Decoding of standard base64 in four-character blocks, as the base64
crate's STANDARD engine does: the length must be a multiple of four,
padding is mandatory and canonical, '=' may appear only at the last one
or two positions, and unused trailing bits must be zero. -/
def base64DecodeChunks : List Char → Option (List Nat)
  | [] => some []
  | c1 :: c2 :: c3 :: c4 :: rest =>
    match b64Value c1, b64Value c2 with
    | some v1, some v2 =>
      if c3 = '=' then
        if c4 = '=' ∧ rest = [] ∧ v2 % 16 = 0 then some [v1 * 4 + v2 / 16] else none
      else
        match b64Value c3 with
        | some v3 =>
          if c4 = '=' then
            if rest = [] ∧ v3 % 4 = 0 then some [v1 * 4 + v2 / 16, v2 % 16 * 16 + v3 / 4]
            else none
          else
            match b64Value c4, base64DecodeChunks rest with
            | some v4, some tail =>
              some ([v1 * 4 + v2 / 16, v2 % 16 * 16 + v3 / 4, v3 % 4 * 64 + v4] ++ tail)
            | _, _ => none
        | none => none
    | _, _ => none
  | _ => none

/-- BASE64.decode from src/duocards/deck.rs, on the characters of the
identifier (ASCII in every input of interest). -/
def base64Decode (s : String) : Option (List Nat) :=
  base64DecodeChunks s.data

/-- Continuation-byte count and initial code-point bits of a UTF-8
leading byte. -/
def utf8Lead (b : Nat) : Option (Nat × Nat) :=
  if b < 128 then some (0, b)
  else if 192 ≤ b ∧ b < 224 then some (1, b - 192)
  else if 224 ≤ b ∧ b < 240 then some (2, b - 224)
  else if 240 ≤ b ∧ b < 248 then some (3, b - 240)
  else none

/-- Smallest code point whose shortest UTF-8 encoding uses the given
number of continuation bytes (overlong encodings are invalid). -/
def utf8Min : Nat → Nat
  | 0 => 0
  | 1 => 128
  | 2 => 2048
  | _ => 65536

/-- Byte-at-a-time UTF-8 validation and decoding, the shape of core's
run_utf8_validation loop: `pending` continuation bytes still expected,
the partial code point, the minimum legal value for the current sequence
(overlong rejection), and the characters decoded so far in reverse. A
completed sequence is rejected when overlong, a surrogate, or above
0x10FFFF. -/
def utf8Aux : List Nat → Nat → Nat → Nat → List Char → Option (List Char)
  | [], 0, _, _, acc => some acc.reverse
  | [], _ + 1, _, _, _ => none
  | b :: rest, 0, _, _, acc =>
    match utf8Lead b with
    | none => none
    | some (0, cp) => utf8Aux rest 0 0 0 (Char.ofNat cp :: acc)
    | some (n + 1, init) => utf8Aux rest (n + 1) init (utf8Min (n + 1)) acc
  | b :: rest, n + 1, cp, lo, acc =>
    if 128 ≤ b ∧ b < 192 then
      match n with
      | 0 =>
        if cp * 64 + (b - 128) < lo ∨
            (55296 ≤ cp * 64 + (b - 128) ∧ cp * 64 + (b - 128) ≤ 57343) ∨
            1114111 < cp * 64 + (b - 128) then none
        else utf8Aux rest 0 0 0 (Char.ofNat (cp * 64 + (b - 128)) :: acc)
      | m + 1 => utf8Aux rest (m + 1) (cp * 64 + (b - 128)) lo acc
    else none

/-- String::from_utf8 from the pipeline in src/duocards/deck.rs: strict
UTF-8 decoding (rejecting overlong forms, surrogates and code points
above 0x10FFFF), yielding the decoded characters. -/
def utf8Decode (bytes : List Nat) : Option (List Char) :=
  utf8Aux bytes 0 0 0 []

/-- Value of a hexadecimal digit, upper or lower case. -/
def hexVal (c : Char) : Option Nat :=
  if '0' ≤ c ∧ c ≤ '9' then some (c.toNat - 48)
  else if 'a' ≤ c ∧ c ≤ 'f' then some (c.toNat - 87)
  else if 'A' ≤ c ∧ c ≤ 'F' then some (c.toNat - 55)
  else none

/-- Pairs of hex digits as a byte list (fails on an odd count or a
non-hex character). -/
def parseHexBytes : List Char → Option (List Nat)
  | [] => some []
  | c1 :: c2 :: rest =>
    match hexVal c1, hexVal c2, parseHexBytes rest with
    | some h, some l, some t => some ((h * 16 + l) :: t)
    | _, _, _ => none
  | _ => none

/-- The uuid crate's simple format: exactly 32 hex digits. -/
def uuidParseSimple (s : List Char) : Option (List Nat) :=
  if s.length = 32 then parseHexBytes s else none

/-- The uuid crate's hyphenated format: 8-4-4-4-12 hex groups separated
by hyphens at positions 8, 13, 18 and 23. -/
def uuidParseHyphenated (s : List Char) : Option (List Nat) :=
  if s.length = 36 then
    if s.getD 8 'x' = '-' ∧ s.getD 13 'x' = '-' ∧ s.getD 18 'x' = '-' ∧ s.getD 23 'x' = '-' then
      parseHexBytes
        (s.take 8 ++ ((s.drop 9).take 4 ++ ((s.drop 14).take 4 ++ ((s.drop 19).take 4 ++ s.drop 24))))
    else none
  else none

/-- Uuid::parse_str as used in src/duocards/deck.rs: accepts the simple
(32 chars), hyphenated (36), braced (38) and URN (45) formats, yielding
the 16 UUID bytes. -/
def uuidParseStr (s : List Char) : Option (List Nat) :=
  if s.length = 32 then uuidParseSimple s
  else if s.length = 36 then uuidParseHyphenated s
  else if s.length = 38 ∧ s.headD 'x' = '{' ∧ s.getLastD 'x' = '}' then
    uuidParseHyphenated ((s.drop 1).take 36)
  else if s.length = 45 ∧ s.take 9 = "urn:uuid:".data then
    uuidParseHyphenated (s.drop 9)
  else none

/-- Uuid::get_version_num: the high nibble of byte 6; version 4
(Version::Random) is the value the validator demands. -/
def uuidVersionNumber (bytes : List Nat) : Nat :=
  bytes.getD 6 0 / 16

/-- Iteration core of str::trim_start_matches("Deck:"): strip the prefix
while it matches. Each strip removes five characters, so `s.length`
rounds of fuel always suffice; the fuel only bounds the iteration count
and never changes the result. -/
def trimDeckAux : Nat → List Char → List Char
  | 0, s => s
  | fuel + 1, s => if s.take 5 = "Deck:".data then trimDeckAux fuel (s.drop 5) else s

/-- str::trim_start_matches("Deck:") from src/duocards/deck.rs: removes
every leading repetition of "Deck:" (not just the first). -/
def trim_start_matches_deck (s : List Char) : List Char :=
  trimDeckAux s.length s

/-- validate_deck_id from src/duocards/deck.rs: base64-decode, require
UTF-8, require the "Deck:" text to start the decoded string, strip the
prefix with trim_start_matches, parse the rest as a UUID and require
version 4. Each failure short-circuits with its DeckIdError kind. -/
def validate_deck_id (deck_id : String) : Except DeckIdError Unit :=
  match base64Decode deck_id with
  | none => Except.error DeckIdError.invalidBase64
  | some decoded =>
    match utf8Decode decoded with
    | none => Except.error DeckIdError.invalidFormat
    | some decoded_str =>
      if decoded_str.take 5 = "Deck:".data then
        match uuidParseStr (trim_start_matches_deck decoded_str) with
        | none => Except.error DeckIdError.invalidUuid
        | some uuid =>
          if uuidVersionNumber uuid = 4 then Except.ok ()
          else Except.error DeckIdError.notUuidV4
      else Except.error DeckIdError.invalidFormat

/-- DuocardsClient::fetch_page from src/duocards/client.rs: it validates
the deck id before building or sending any HTTP request. The network
interaction is abstracted by its outcome `net`; the returned Bool
records whether a network request was issued. -/
def client_fetch_page (deck_id : String) (net : Except DuoloadError DuocardsResponse) :
    Except DuoloadError DuocardsResponse × Bool :=
  match validate_deck_id deck_id with
  | Except.error e => (Except.error (DuoloadError.deckId e), false)
  | Except.ok _ => (net, true)

/-- main from src/main.rs, after argument parsing: validate the deck id
(returning an Api-wrapped error without ever constructing the transfer
processor when it fails), then run the pipeline and propagate its
error. -/
def main_run {σ : Type} (deck_id : String)
    (addFn : σ → VocabularyCard → Except DuoloadError (Bool × σ))
    (writeFn : σ → Except DuoloadError Unit) (page_limit : Option Nat)
    (responses : List (Except DuoloadError DuocardsResponse)) (sink0 : σ) :
    Except DuoloadError (ProcessResult σ) :=
  match validate_deck_id deck_id with
  | Except.error _ => Except.error DuoloadError.api
  | Except.ok _ =>
    let r := process addFn writeFn page_limit responses sink0
    match r.error with
    | some e => Except.error e
    | none => Except.ok r

/-- The kind of response a record in the spec's scenarios carries: the
test harness (create_test_response in src/transfer/processor.rs) encodes
a learning status back into a `known_count` (Known → 5, Learning → 2,
New → 0). -/
def statusKnownCount : LearningStatus → Int
  | LearningStatus.known => 5
  | LearningStatus.learning => 2
  | LearningStatus.new => 0

/-- create_test_response from the tests in src/transfer/processor.rs:
wraps vocabulary cards into a DuocardsResponse with fixed id/typename
and per-edge cursor "0". -/
def create_test_response (cards : List VocabularyCard) (has_next_page : Bool)
    (end_cursor : Option String) : DuocardsResponse :=
  { data :=
    { node :=
      { typename := "Deck"
        cards :=
          { edges := cards.map (fun card =>
              { node :=
                { id := "test-id"
                  front := card.word
                  back := card.translation
                  hint := card.«example»
                  known_count := statusKnownCount card.status
                  typename := "Card" }
                cursor := "0" })
            page_info := { end_cursor := end_cursor, has_next_page := has_next_page } }
        id := "test-deck" } } }

/-- JsonOutputBuilder::add_note wrapped as the pipeline's fallible sink
interface: the Rust method always returns Ok of the (bool, new state)
outcome. -/
def json_add (b : JsonOutputBuilder) (card : VocabularyCard) :
    Except DuoloadError (Bool × JsonOutputBuilder) :=
  Except.ok (b.add_note card)

/-- A finalize step that always succeeds (the JSON builder's write to a
healthy destination). -/
def write_ok {σ : Type} (_s : σ) : Except DuoloadError Unit :=
  Except.ok ()

/-- Page 1 of the spec's end-to-end scenario. -/
def scenario_page1 : DuocardsResponse :=
  create_test_response
    [{ word := "hello", translation := "hola", «example» := none, status := LearningStatus.new },
     { word := "world", translation := "mundo", «example» := none, status := LearningStatus.known }]
    true (some "c1")

/-- Page 2 of the spec's end-to-end scenario. -/
def scenario_page2 : DuocardsResponse :=
  create_test_response
    [{ word := "hello", translation := "hola", «example» := none, status := LearningStatus.learning }]
    false none

/-- The spec's end-to-end scenario run through the pipeline with the
JSON sink. -/
def scenario_result : ProcessResult JsonOutputBuilder :=
  process json_add write_ok none [Except.ok scenario_page1, Except.ok scenario_page2]
    { cards := [], existing_words := [] }

/-- Running the deduplication tracker over a sequence of keys: the value
try_remember returned for each presentation, and the final set. -/
def run_remember : List String → List String → List Bool × List String
  | processed_words, [] => ([], processed_words)
  | processed_words, w :: ws =>
    let p := try_remember processed_words w
    let q := run_remember p.2 ws
    (p.1 :: q.1, q.2)

/-- A record stream with every record whose key occurred earlier (or in
`seen`) removed: the order-preserving effect of the pipeline's
per-record dedup gate. -/
def dedup_filter (seen : List String) : List VocabularyCard → List VocabularyCard
  | [] => []
  | c :: rest =>
    if c.word ∈ seen then dedup_filter seen rest
    else c :: dedup_filter (c.word :: seen) rest

/-- The dedup set after a record stream has passed the gate. -/
def seen_after (seen : List String) : List VocabularyCard → List String
  | [] => seen
  | c :: rest =>
    if c.word ∈ seen then seen_after seen rest
    else seen_after (c.word :: seen) rest

/-- An add function that can always answer (the concrete builders'
add_note never returns Err). -/
def TotalAdd {σ : Type} (addFn : σ → VocabularyCard → Except DuoloadError (Bool × σ)) : Prop :=
  ∀ s c, ∃ r, addFn s c = Except.ok r

/-- The iteration state carried by a loop outcome, whichever way the
loop ended. -/
def LoopOutcome.state {σ : Type} : LoopOutcome σ → IterState σ
  | LoopOutcome.done st => st
  | LoopOutcome.failed _ st => st
  | LoopOutcome.exhausted st => st

/-- Whether the loop ended by propagating a fetch or add error. -/
def LoopOutcome.isFailed {σ : Type} : LoopOutcome σ → Bool
  | LoopOutcome.failed _ _ => true
  | _ => false

/-- A TotalAdd instance for the JSON sink: its add_note always returns
Ok. -/
theorem json_add_total : TotalAdd json_add :=
  fun s c => ⟨s.add_note c, rfl⟩

theorem seen_after_append (xs ys : List VocabularyCard) :
    ∀ seen, seen_after seen (xs ++ ys) = seen_after (seen_after seen xs) ys := by
  induction xs with
  | nil => intro seen; simp [seen_after]
  | cons c rest ih =>
    intro seen
    by_cases hc : c.word ∈ seen <;> simp [seen_after, hc, ih]

theorem dedup_filter_append (xs ys : List VocabularyCard) :
    ∀ seen, dedup_filter seen (xs ++ ys) =
      dedup_filter seen xs ++ dedup_filter (seen_after seen xs) ys := by
  induction xs with
  | nil => intro seen; simp [dedup_filter, seen_after]
  | cons c rest ih =>
    intro seen
    by_cases hc : c.word ∈ seen <;> simp [dedup_filter, seen_after, hc, ih]

/-- When the add function never errors, one page's record loop succeeds
and passes to the sink exactly the page's records filtered by the dedup
gate, extending the seen set accordingly; the fetch counter is
untouched. -/
theorem process_cards_total {σ : Type}
    {addFn : σ → VocabularyCard → Except DuoloadError (Bool × σ)} (h : TotalAdd addFn)
    (cards : List VocabularyCard) :
    ∀ st : IterState σ, ∃ st' : IterState σ,
      process_cards addFn st cards = (st', none) ∧
      st'.sink_adds = st.sink_adds ++ dedup_filter st.processed_words cards ∧
      st'.processed_words = seen_after st.processed_words cards ∧
      st'.fetch_count = st.fetch_count := by
  induction cards with
  | nil => intro st; exact ⟨st, rfl, by simp [dedup_filter], by simp [seen_after], rfl⟩
  | cons c rest ih =>
    intro st
    by_cases hc : c.word ∈ st.processed_words
    · obtain ⟨st', heq, hsink, hseen, hfc⟩ := ih
        { st with
          stats := { st.stats with duplicates := st.stats.duplicates + 1 }
          processed_words := st.processed_words }
      refine ⟨st', ?_, ?_, ?_, ?_⟩
      · rw [show process_cards addFn st (c :: rest) =
            process_cards addFn
              { st with
                stats := { st.stats with duplicates := st.stats.duplicates + 1 }
                processed_words := st.processed_words } rest by
          simp [process_cards, try_remember, hc]]
        exact heq
      · rw [hsink]; simp [dedup_filter, hc]
      · rw [hseen]; simp [seen_after, hc]
      · exact hfc
    · obtain ⟨⟨added, sink'⟩, hr⟩ := h st.sink c
      obtain ⟨st', heq, hsink, hseen, hfc⟩ := ih
        { st with
          processed_words := c.word :: st.processed_words
          sink := sink'
          sink_adds := st.sink_adds ++ [c]
          add_results := st.add_results ++ [added]
          stats :=
            if added then { st.stats with total_cards := st.stats.total_cards + 1 }
            else st.stats }
      refine ⟨st', ?_, ?_, ?_, ?_⟩
      · rw [show process_cards addFn st (c :: rest) =
            process_cards addFn
              { st with
                processed_words := c.word :: st.processed_words
                sink := sink'
                sink_adds := st.sink_adds ++ [c]
                add_results := st.add_results ++ [added]
                stats :=
                  if added then { st.stats with total_cards := st.stats.total_cards + 1 }
                  else st.stats } rest by
          simp [process_cards, try_remember, hc, hr]]
        exact heq
      · rw [hsink]; simp [dedup_filter, hc]
      · rw [hseen]; simp [seen_after, hc]
      · exact hfc

/-- When the add function never errors, the paging loop never fails, and
over the pages it actually fetched (`n` of them) the sink receives the
concatenated converted records filtered by the dedup gate. -/
theorem process_loop_total {σ : Type}
    {addFn : σ → VocabularyCard → Except DuoloadError (Bool × σ)} (h : TotalAdd addFn)
    (page_limit : Option Nat) (rs : List DuocardsResponse) :
    ∀ (pc : Nat) (st : IterState σ), ∃ n, n ≤ rs.length ∧
      (process_loop addFn page_limit (rs.map Except.ok) pc st).isFailed = false ∧
      ((process_loop addFn page_limit (rs.map Except.ok) pc st).state).fetch_count =
        st.fetch_count + n ∧
      ((process_loop addFn page_limit (rs.map Except.ok) pc st).state).sink_adds =
        st.sink_adds ++
          dedup_filter st.processed_words
            (((rs.take n).map convert_to_vocabulary_cards).flatten) ∧
      ((process_loop addFn page_limit (rs.map Except.ok) pc st).state).processed_words =
        seen_after st.processed_words (((rs.take n).map convert_to_vocabulary_cards).flatten) := by
  induction rs with
  | nil =>
    intro pc st
    refine ⟨0, Nat.le_refl 0, ?_⟩
    cases hsc : should_continue page_limit (pc + 1) <;>
      simp [process_loop, hsc, LoopOutcome.isFailed, LoopOutcome.state, dedup_filter, seen_after]
  | cons r rest ih =>
    intro pc st
    cases hsc : should_continue page_limit (pc + 1) with
    | false =>
      refine ⟨0, Nat.zero_le _, ?_⟩
      simp [process_loop, hsc, LoopOutcome.isFailed, LoopOutcome.state, dedup_filter, seen_after]
    | true =>
      obtain ⟨st2, heq, hsink, hseen, hfc⟩ :=
        process_cards_total h (convert_to_vocabulary_cards r)
          { st with fetch_count := st.fetch_count + 1 }
      have hfc2 : st2.fetch_count = st.fetch_count + 1 := by simpa using hfc
      have hsink2 : st2.sink_adds =
          st.sink_adds ++ dedup_filter st.processed_words (convert_to_vocabulary_cards r) := by
        simpa using hsink
      have hseen2 : st2.processed_words =
          seen_after st.processed_words (convert_to_vocabulary_cards r) := by
        simpa using hseen
      cases hnext : r.data.node.cards.page_info.has_next_page with
      | false =>
        refine ⟨1, by simp, ?_⟩
        rw [show process_loop addFn page_limit ((r :: rest).map Except.ok) pc st =
            LoopOutcome.done st2 by
          simp [process_loop, hsc, heq, hnext]]
        refine ⟨rfl, ?_, ?_, ?_⟩
        · exact hfc2
        · rw [show (LoopOutcome.done st2).state = st2 from rfl, hsink2]; simp
        · rw [show (LoopOutcome.done st2).state = st2 from rfl, hseen2]; simp
      | true =>
        obtain ⟨n, hn, hfail, hfc', hsink', hseen'⟩ :=
          ih (pc + 1) { st2 with cursor := r.data.node.cards.page_info.end_cursor }
        have hfc'2 :
            ((process_loop addFn page_limit (rest.map Except.ok) (pc + 1)
              { st2 with cursor := r.data.node.cards.page_info.end_cursor }).state).fetch_count =
              st2.fetch_count + n := by simpa using hfc'
        have hsink'2 :
            ((process_loop addFn page_limit (rest.map Except.ok) (pc + 1)
              { st2 with cursor := r.data.node.cards.page_info.end_cursor }).state).sink_adds =
              st2.sink_adds ++
                dedup_filter st2.processed_words
                  (((rest.take n).map convert_to_vocabulary_cards).flatten) := by
          simpa using hsink'
        have hseen'2 :
            ((process_loop addFn page_limit (rest.map Except.ok) (pc + 1)
              { st2 with cursor := r.data.node.cards.page_info.end_cursor }).state).processed_words =
              seen_after st2.processed_words
                (((rest.take n).map convert_to_vocabulary_cards).flatten) := by
          simpa using hseen'
        refine ⟨n + 1, by simpa using hn, ?_⟩
        rw [show process_loop addFn page_limit ((r :: rest).map Except.ok) pc st =
            process_loop addFn page_limit (rest.map Except.ok) (pc + 1)
              { st2 with cursor := r.data.node.cards.page_info.end_cursor } by
          simp [process_loop, hsc, heq, hnext]]
        refine ⟨hfail, ?_, ?_, ?_⟩
        · rw [hfc'2, hfc2]; omega
        · rw [hsink'2, hsink2, hseen2, List.take_succ_cons, List.map_cons, List.flatten_cons,
            dedup_filter_append]
          simp
        · rw [hseen'2, hseen2, List.take_succ_cons, List.map_cons, List.flatten_cons,
            seen_after_append]

/-- The state a full `process` call reports is the state its paging loop
ended in, whatever the finalize step then did. -/
theorem process_state_eq {σ : Type}
    (addFn : σ → VocabularyCard → Except DuoloadError (Bool × σ))
    (writeFn : σ → Except DuoloadError Unit) (page_limit : Option Nat)
    (responses : List (Except DuoloadError DuocardsResponse)) (sink0 : σ) :
    (process addFn writeFn page_limit responses sink0).state =
      (process_loop addFn page_limit responses 0 (initState sink0)).state := by
  unfold process
  cases hout : process_loop addFn page_limit responses 0 (initState sink0) with
  | done st => cases hw : writeFn st.sink <;> simp [hw, LoopOutcome.state]
  | failed e st => rfl
  | exhausted st => rfl

section Theorems

/-- C1: on the spec's two-page scenario (page 1: "hello" new, "world"
known, has_more with cursor "c1"; page 2: "hello" again, last page), a
fresh pipeline run ends with total_cards = 2 and duplicates = 1, the
sink's add receives exactly the "hello" then "world" records in that
order (so the second "hello" record is never passed to the sink), and
the run succeeds. -/
theorem c1_end_to_end_scenario :
    scenario_result.state.stats = { total_cards := 2, duplicates := 1 } ∧
    scenario_result.state.sink_adds =
      [{ word := "hello", translation := "hola", «example» := none, status := LearningStatus.new },
       { word := "world", translation := "mundo", «example» := none, status := LearningStatus.known }] ∧
    scenario_result.error = none ∧ scenario_result.finalized = true :=
  ⟨rfl, rfl, rfl, rfl⟩

/-- try_remember answers true exactly when an equal key (String equality,
no normalization) is already in the set. -/
theorem try_remember_fst (s : List String) (w : String) :
    (try_remember s w).1 = decide (w ∈ s) := by
  by_cases h : w ∈ s <;> simp [try_remember, h]

/-- Membership in the set left behind by a sequence of try_remember
calls: the starting set plus every presented key. -/
theorem run_remember_set (keys : List String) :
    ∀ (s : List String) (k : String), k ∈ (run_remember s keys).2 ↔ k ∈ s ∨ k ∈ keys := by
  induction keys with
  | nil => intro s k; simp [run_remember]
  | cons w ws ih =>
    intro s k
    by_cases h : w ∈ s
    · rw [show (run_remember s (w :: ws)).2 = (run_remember s ws).2 by
        simp [run_remember, try_remember, h]]
      rw [ih]
      constructor
      · rintro (hk | hk)
        · exact Or.inl hk
        · exact Or.inr (List.mem_cons_of_mem _ hk)
      · rintro (hk | hk)
        · exact Or.inl hk
        · rcases List.mem_cons.mp hk with rfl | hk
          · exact Or.inl h
          · exact Or.inr hk
    · rw [show (run_remember s (w :: ws)).2 = (run_remember (w :: s) ws).2 by
        simp [run_remember, try_remember, h]]
      rw [ih]
      simp [List.mem_cons]
      tauto

/-- The result of the i-th try_remember call in a run: true exactly when
the i-th key is in the starting set or occurred earlier in the run. -/
theorem run_remember_res (keys : List String) :
    ∀ (s : List String) (i : Nat), i < keys.length →
      (run_remember s keys).1.getD i false =
        decide (keys.getD i "" ∈ s ∨ keys.getD i "" ∈ keys.take i) := by
  induction keys with
  | nil => intro s i h; simp at h
  | cons w ws ih =>
    intro s i h
    have hfst : (run_remember s (w :: ws)).1 =
        (try_remember s w).1 :: (run_remember (try_remember s w).2 ws).1 := rfl
    cases i with
    | zero => simp [hfst, try_remember_fst]
    | succ j =>
      have hj : j < ws.length := by simpa using h
      rw [hfst, List.getD_cons_succ, ih (try_remember s w).2 j hj]
      have hiff : (ws.getD j "" ∈ (try_remember s w).2 ∨ ws.getD j "" ∈ ws.take j) ↔
          (ws.getD j "" ∈ s ∨ ws.getD j "" ∈ (w :: ws).take (j + 1)) := by
        by_cases hw : w ∈ s
        · simp only [try_remember, if_pos hw, List.take_succ_cons, List.mem_cons]
          constructor
          · rintro (hx | hx)
            · exact Or.inl hx
            · exact Or.inr (Or.inr hx)
          · rintro (hx | hx | hx)
            · exact Or.inl hx
            · exact Or.inl (hx ▸ hw)
            · exact Or.inr hx
        · simp only [try_remember, if_neg hw, List.take_succ_cons, List.mem_cons]
          tauto
      simp only [List.getD_cons_succ]
      exact decide_eq_decide.mpr hiff

/-- C3: running the deduplication tracker from a fresh set over any key
sequence, the i-th call returns true exactly when the i-th key occurred
earlier in the sequence (so a first presentation returns false and every
later presentation of the same key returns true, under any
interleaving); a key is in the final set iff it was presented (applying
this to every prefix of a run gives the invariant at every point); and a
single try_remember call answers by exact String equality against the
current set. -/
theorem c3_dedup_tracker (keys : List String) (i : Nat) (h : i < keys.length) :
    ((run_remember [] keys).1.getD i false = decide (keys.getD i "" ∈ keys.take i)) ∧
    (∀ k, k ∈ (run_remember [] keys).2 ↔ k ∈ keys) ∧
    (∀ s w, (try_remember s w).1 = decide (w ∈ s)) := by
  refine ⟨?_, ?_, try_remember_fst⟩
  · rw [run_remember_res keys [] i h]
    exact decide_eq_decide.mpr (by simp)
  · intro k
    rw [run_remember_set keys [] k]
    simp

/-- Witness for C3 at keys ["hello", "world", "hello"], i = 2: the third
presentation (a repeat of "hello") returns true. -/
theorem c3_dedup_tracker_witness :
    (run_remember [] ["hello", "world", "hello"]).1.getD 2 false = true :=
  ((c3_dedup_tracker ["hello", "world", "hello"] 2 (by decide)).1).trans (by decide)

/-- C2: for every response sequence the record source yields (under any
page limit, with a sink whose add never errors), the sequence of records
passed to sink.add equals the concatenation of the per-page record
sequences of the pages actually fetched, in fetch order, with every
record whose key occurred earlier in the stream removed and the
surviving order unchanged. -/
theorem c2_order_preservation {σ : Type}
    (addFn : σ → VocabularyCard → Except DuoloadError (Bool × σ))
    (writeFn : σ → Except DuoloadError Unit) (page_limit : Option Nat)
    (rs : List DuocardsResponse) (sink0 : σ) (h : TotalAdd addFn) :
    (process addFn writeFn page_limit (rs.map Except.ok) sink0).state.sink_adds =
      dedup_filter []
        (((rs.take
            ((process addFn writeFn page_limit (rs.map Except.ok) sink0).state.fetch_count)).map
          convert_to_vocabulary_cards).flatten) := by
  obtain ⟨n, _, _, hfc, hsink, _⟩ := process_loop_total h page_limit rs 0 (initState sink0)
  rw [process_state_eq, hsink, hfc]
  simp [initState]

/-- Witness for C2 on the two-page scenario with the JSON sink. -/
theorem c2_order_preservation_witness :
    (process json_add write_ok none ([scenario_page1, scenario_page2].map Except.ok)
        { cards := [], existing_words := [] }).state.sink_adds =
      dedup_filter []
        ((([scenario_page1, scenario_page2].take
            ((process json_add write_ok none ([scenario_page1, scenario_page2].map Except.ok)
              { cards := [], existing_words := [] }).state.fetch_count)).map
          convert_to_vocabulary_cards).flatten) :=
  c2_order_preservation json_add write_ok none [scenario_page1, scenario_page2]
    { cards := [], existing_words := [] } json_add_total

/-- With limit N and every page reporting a next page, the loop from
page counter `pc ≤ N` performs exactly N - pc further fetches (the
responses list being long enough). -/
theorem process_loop_limit_count {σ : Type}
    {addFn : σ → VocabularyCard → Except DuoloadError (Bool × σ)} (h : TotalAdd addFn)
    (N : Nat) :
    ∀ (rs : List DuocardsResponse),
      (∀ r ∈ rs, r.data.node.cards.page_info.has_next_page = true) →
      ∀ (pc : Nat) (st : IterState σ), pc ≤ N → N - pc ≤ rs.length →
        ((process_loop addFn (some N) (rs.map Except.ok) pc st).state).fetch_count =
          st.fetch_count + (N - pc) := by
  intro rs
  induction rs with
  | nil =>
    intro _ pc st hpc hlen
    have hz : N - pc = 0 := by simpa using hlen
    have hsc : should_continue (some N) (pc + 1) = false := by
      simp [should_continue]; omega
    simp [process_loop, hsc, LoopOutcome.state, hz]
  | cons r rest ih =>
    intro hall pc st hpc hlen
    by_cases hstop : pc + 1 ≤ N
    · have hsc : should_continue (some N) (pc + 1) = true := by
        simp [should_continue]; omega
      obtain ⟨st2, heq, _, _, hfc⟩ :=
        process_cards_total h (convert_to_vocabulary_cards r)
          { st with fetch_count := st.fetch_count + 1 }
      have hfc2 : st2.fetch_count = st.fetch_count + 1 := by simpa using hfc
      have hnext : r.data.node.cards.page_info.has_next_page = true :=
        hall r (List.mem_cons_self r rest)
      rw [show process_loop addFn (some N) ((r :: rest).map Except.ok) pc st =
          process_loop addFn (some N) (rest.map Except.ok) (pc + 1)
            { st2 with cursor := r.data.node.cards.page_info.end_cursor } by
        simp [process_loop, hsc, heq, hnext]]
      rw [ih (fun x hx => hall x (List.mem_cons_of_mem r hx)) (pc + 1)
        { st2 with cursor := r.data.node.cards.page_info.end_cursor } hstop
        (by simp at hlen ⊢; omega)]
      rw [show ({ st2 with cursor := r.data.node.cards.page_info.end_cursor } :
          IterState σ).fetch_count = st2.fetch_count from rfl, hfc2]
      omega
    · have hsc : should_continue (some N) (pc + 1) = false := by
        simp [should_continue]; omega
      have hz : N - pc = 0 := by omega
      simp [process_loop, hsc, LoopOutcome.state, hz]

/-- With no limit, the loop fetches every page up to and including the
first one that reports no next page. -/
theorem process_loop_unlimited_count {σ : Type}
    {addFn : σ → VocabularyCard → Except DuoloadError (Bool × σ)} (h : TotalAdd addFn) :
    ∀ (pre : List DuocardsResponse) (lastPage : DuocardsResponse),
      (∀ r ∈ pre, r.data.node.cards.page_info.has_next_page = true) →
      lastPage.data.node.cards.page_info.has_next_page = false →
      ∀ (pc : Nat) (st : IterState σ),
        ((process_loop addFn none ((pre ++ [lastPage]).map Except.ok) pc st).state).fetch_count =
          st.fetch_count + (pre.length + 1) := by
  intro pre
  induction pre with
  | nil =>
    intro lastPage _ hlast pc st
    obtain ⟨st2, heq, _, _, hfc⟩ :=
      process_cards_total h (convert_to_vocabulary_cards lastPage)
        { st with fetch_count := st.fetch_count + 1 }
    have hfc2 : st2.fetch_count = st.fetch_count + 1 := by simpa using hfc
    rw [show process_loop addFn none
          ((([] : List DuocardsResponse) ++ [lastPage]).map Except.ok) pc st =
        LoopOutcome.done st2 by
      simp [process_loop, should_continue, heq, hlast]]
    simpa [LoopOutcome.state] using hfc2
  | cons r rest ih =>
    intro lastPage hall hlast pc st
    have hnext : r.data.node.cards.page_info.has_next_page = true :=
      hall r (List.mem_cons_self r rest)
    obtain ⟨st2, heq, _, _, hfc⟩ :=
      process_cards_total h (convert_to_vocabulary_cards r)
        { st with fetch_count := st.fetch_count + 1 }
    have hfc2 : st2.fetch_count = st.fetch_count + 1 := by simpa using hfc
    rw [show process_loop addFn none (((r :: rest) ++ [lastPage]).map Except.ok) pc st =
        process_loop addFn none ((rest ++ [lastPage]).map Except.ok) (pc + 1)
          { st2 with cursor := r.data.node.cards.page_info.end_cursor } by
      simp [process_loop, should_continue, heq, hnext]]
    rw [ih lastPage (fun x hx => hall x (List.mem_cons_of_mem r hx)) hlast (pc + 1)
      { st2 with cursor := r.data.node.cards.page_info.end_cursor }]
    rw [show ({ st2 with cursor := r.data.node.cards.page_info.end_cursor } :
        IterState σ).fetch_count = st2.fetch_count from rfl, hfc2]
    simp [List.length_cons]
    omega

/-- C5: the page-limit policy is the pure predicate page ≤ N on 1-based
page numbers when a limit N is configured and constantly true when not;
with limit N, exactly N fetch calls occur even when every fetched page
reports further pages available; with no limit, fetching continues until
the first page that reports no further pages (fetching exactly the pages
up to and including it). -/
theorem c5_page_limit_policy {σ : Type}
    (addFn : σ → VocabularyCard → Except DuoloadError (Bool × σ))
    (writeFn : σ → Except DuoloadError Unit) (sink0 : σ) (h : TotalAdd addFn) :
    (∀ N p, should_continue (some N) p = decide (p ≤ N)) ∧
    (∀ p, should_continue none p = true) ∧
    (∀ (N : Nat) (rs : List DuocardsResponse),
      (∀ r ∈ rs, r.data.node.cards.page_info.has_next_page = true) → N ≤ rs.length →
      (process addFn writeFn (some N) (rs.map Except.ok) sink0).state.fetch_count = N) ∧
    (∀ (pre : List DuocardsResponse) (lastPage : DuocardsResponse),
      (∀ r ∈ pre, r.data.node.cards.page_info.has_next_page = true) →
      lastPage.data.node.cards.page_info.has_next_page = false →
      (process addFn writeFn none ((pre ++ [lastPage]).map Except.ok) sink0).state.fetch_count =
        pre.length + 1) := by
  refine ⟨fun N p => rfl, fun p => rfl, ?_, ?_⟩
  · intro N rs hall hlen
    rw [process_state_eq,
      process_loop_limit_count h N rs hall 0 (initState sink0) (Nat.zero_le N) (by simpa)]
    simp [initState]
  · intro pre lastPage hall hlast
    rw [process_state_eq, process_loop_unlimited_count h pre lastPage hall hlast 0 (initState sink0)]
    simp [initState]

/-- Witness for C5: three always-more pages under limit 2 give exactly
two fetches; one more-page page followed by a final page, unlimited,
gives exactly two fetches. -/
theorem c5_page_limit_policy_witness :
    (process json_add write_ok (some 2)
        ([scenario_page1, scenario_page1, scenario_page1].map Except.ok)
        { cards := [], existing_words := [] }).state.fetch_count = 2 ∧
    (process json_add write_ok none (([scenario_page1] ++ [scenario_page2]).map Except.ok)
        { cards := [], existing_words := [] }).state.fetch_count = 2 := by
  constructor
  · exact (c5_page_limit_policy json_add write_ok { cards := [], existing_words := [] }
      json_add_total).2.2.1 2 [scenario_page1, scenario_page1, scenario_page1]
      (by decide) (by decide)
  · have hc := (c5_page_limit_policy json_add write_ok { cards := [], existing_words := [] }
      json_add_total).2.2.2 [scenario_page1] scenario_page2 (by decide) (by decide)
    simpa using hc

/-- When the record loop of a page aborts with an add error, the records
after the failing one are never examined: appending them changes neither
the state reached nor the error. -/
theorem process_cards_err_append {σ : Type}
    {addFn : σ → VocabularyCard → Except DuoloadError (Bool × σ)} :
    ∀ (cards : List VocabularyCard) (st st' : IterState σ) (e : DuoloadError),
      process_cards addFn st cards = (st', some e) →
      ∀ more, process_cards addFn st (cards ++ more) = (st', some e) := by
  intro cards
  induction cards with
  | nil => intro st st' e hx more; simp [process_cards] at hx
  | cons c rest ih =>
    intro st st' e hx more
    by_cases hc : c.word ∈ st.processed_words
    · rw [show process_cards addFn st (c :: rest) =
          process_cards addFn
            { st with
              stats := { st.stats with duplicates := st.stats.duplicates + 1 }
              processed_words := st.processed_words } rest by
        simp [process_cards, try_remember, hc]] at hx
      rw [show process_cards addFn st ((c :: rest) ++ more) =
          process_cards addFn
            { st with
              stats := { st.stats with duplicates := st.stats.duplicates + 1 }
              processed_words := st.processed_words } (rest ++ more) by
        simp [process_cards, try_remember, hc]]
      exact ih _ _ _ hx more
    · cases hr : addFn st.sink c with
      | error e0 =>
        rw [show process_cards addFn st (c :: rest) =
            ({ st with
                processed_words := c.word :: st.processed_words
                sink_adds := st.sink_adds ++ [c] }, some e0) by
          simp [process_cards, try_remember, hc, hr]] at hx
        rw [show process_cards addFn st ((c :: rest) ++ more) =
            ({ st with
                processed_words := c.word :: st.processed_words
                sink_adds := st.sink_adds ++ [c] }, some e0) by
          simp [process_cards, try_remember, hc, hr]]
        exact hx
      | ok p =>
        obtain ⟨added, sink'⟩ := p
        rw [show process_cards addFn st (c :: rest) =
            process_cards addFn
              { st with
                processed_words := c.word :: st.processed_words
                sink := sink'
                sink_adds := st.sink_adds ++ [c]
                add_results := st.add_results ++ [added]
                stats :=
                  if added then { st.stats with total_cards := st.stats.total_cards + 1 }
                  else st.stats } rest by
          simp [process_cards, try_remember, hc, hr]] at hx
        rw [show process_cards addFn st ((c :: rest) ++ more) =
            process_cards addFn
              { st with
                processed_words := c.word :: st.processed_words
                sink := sink'
                sink_adds := st.sink_adds ++ [c]
                add_results := st.add_results ++ [added]
                stats :=
                  if added then { st.stats with total_cards := st.stats.total_cards + 1 }
                  else st.stats } (rest ++ more) by
          simp [process_cards, try_remember, hc, hr]]
        exact ih _ _ _ hx more

/-- When the paging loop aborts with a fetch or add error, the responses
the source could still have served are never requested: appending them
changes nothing. -/
theorem process_loop_failed_append {σ : Type}
    {addFn : σ → VocabularyCard → Except DuoloadError (Bool × σ)} :
    ∀ (responses : List (Except DuoloadError DuocardsResponse)) (page_limit : Option Nat)
      (pc : Nat) (st : IterState σ) (e : DuoloadError) (st' : IterState σ),
      process_loop addFn page_limit responses pc st = LoopOutcome.failed e st' →
      ∀ rest, process_loop addFn page_limit (responses ++ rest) pc st =
        LoopOutcome.failed e st' := by
  intro responses
  induction responses with
  | nil =>
    intro pl pc st e st' hx rest
    cases hsc : should_continue pl (pc + 1) with
    | false =>
      rw [show process_loop addFn pl [] pc st = LoopOutcome.done st by
        simp [process_loop, hsc]] at hx
      exact LoopOutcome.noConfusion hx
    | true =>
      rw [show process_loop addFn pl [] pc st = LoopOutcome.exhausted st by
        simp [process_loop, hsc]] at hx
      exact LoopOutcome.noConfusion hx
  | cons r rs ih =>
    intro pl pc st e st' hx rest
    cases hsc : should_continue pl (pc + 1) with
    | false =>
      rw [show process_loop addFn pl (r :: rs) pc st = LoopOutcome.done st by
        unfold process_loop; rw [hsc]; simp] at hx
      exact LoopOutcome.noConfusion hx
    | true =>
      cases r with
      | error e0 =>
        rw [show process_loop addFn pl (Except.error e0 :: rs) pc st =
            LoopOutcome.failed e0 { st with fetch_count := st.fetch_count + 1 } by
          simp [process_loop, hsc]] at hx
        rw [show process_loop addFn pl ((Except.error e0 :: rs) ++ rest) pc st =
            LoopOutcome.failed e0 { st with fetch_count := st.fetch_count + 1 } by
          simp [process_loop, hsc]]
        exact hx
      | ok resp =>
        rcases hpc : process_cards addFn { st with fetch_count := st.fetch_count + 1 }
          (convert_to_vocabulary_cards resp) with ⟨st2, errOpt⟩
        cases errOpt with
        | some e1 =>
          rw [show process_loop addFn pl (Except.ok resp :: rs) pc st =
              LoopOutcome.failed e1 st2 by simp [process_loop, hsc, hpc]] at hx
          rw [show process_loop addFn pl ((Except.ok resp :: rs) ++ rest) pc st =
              LoopOutcome.failed e1 st2 by simp [process_loop, hsc, hpc]]
          exact hx
        | none =>
          cases hnext : resp.data.node.cards.page_info.has_next_page with
          | false => simp [process_loop, hsc, hpc, hnext] at hx
          | true =>
            rw [show process_loop addFn pl (Except.ok resp :: rs) pc st =
                process_loop addFn pl rs (pc + 1)
                  { st2 with cursor := resp.data.node.cards.page_info.end_cursor } by
              simp [process_loop, hsc, hpc, hnext]] at hx
            rw [show process_loop addFn pl ((Except.ok resp :: rs) ++ rest) pc st =
                process_loop addFn pl (rs ++ rest) (pc + 1)
                  { st2 with cursor := resp.data.node.cards.page_info.end_cursor } by
              simp [process_loop, hsc, hpc, hnext]]
            exact ih pl (pc + 1) _ e st' hx rest

/-- C6: when a fetch call or a sink add call returns an error, the run
terminates immediately with that error: finalize (write_output) is not
invoked and the stats accumulated so far are reported as-is; further
pages the source could have served are never fetched and the failing
page is not retried (appending any continuation to the scripted
responses leaves the outcome unchanged); and within the failing page the
records after the failing one are presented neither to the dedup tracker
nor to the sink. -/
theorem c6_error_aborts_run {σ : Type}
    (addFn : σ → VocabularyCard → Except DuoloadError (Bool × σ))
    (writeFn : σ → Except DuoloadError Unit) (page_limit : Option Nat)
    (responses rest : List (Except DuoloadError DuocardsResponse)) (sink0 : σ)
    (e : DuoloadError) (st : IterState σ)
    (h : process_loop addFn page_limit responses 0 (initState sink0) =
      LoopOutcome.failed e st) :
    process addFn writeFn page_limit responses sink0 =
      { state := st, error := some e, finalized := false, exhausted := false } ∧
    process addFn writeFn page_limit (responses ++ rest) sink0 =
      { state := st, error := some e, finalized := false, exhausted := false } ∧
    (∀ (st0 : IterState σ) (cards : List VocabularyCard) (st1 : IterState σ)
        (e1 : DuoloadError) (more : List VocabularyCard),
      process_cards addFn st0 cards = (st1, some e1) →
      process_cards addFn st0 (cards ++ more) = (st1, some e1)) := by
  refine ⟨?_, ?_, fun st0 cards st1 e1 more hx => process_cards_err_append cards st0 st1 e1 hx more⟩
  · unfold process
    rw [h]
  · unfold process
    rw [process_loop_failed_append responses page_limit 0 (initState sink0) e st h rest]

/-- Witness for C6: a run whose first fetch fails with an Api error ends
immediately with that error, unfinalized, after exactly one fetch call. -/
theorem c6_error_aborts_run_witness :
    process json_add write_ok none [Except.error DuoloadError.api]
        { cards := [], existing_words := [] } =
      { state :=
          { stats := { total_cards := 0, duplicates := 0 }
            processed_words := []
            sink := { cards := [], existing_words := [] }
            sink_adds := []
            add_results := []
            fetch_count := 1
            cursor := none }
        error := some DuoloadError.api
        finalized := false
        exhausted := false } :=
  (c6_error_aborts_run json_add write_ok none [Except.error DuoloadError.api] []
    { cards := [], existing_words := [] } DuoloadError.api
    { stats := { total_cards := 0, duplicates := 0 }
      processed_words := []
      sink := { cards := [], existing_words := [] }
      sink_adds := []
      add_results := []
      fetch_count := 1
      cursor := none } rfl).1

/-- The page loop maintains the invariant that total_cards equals the
number of add calls that returned true. -/
theorem process_cards_count_inv {σ : Type}
    {addFn : σ → VocabularyCard → Except DuoloadError (Bool × σ)} :
    ∀ (cards : List VocabularyCard) (st : IterState σ),
      st.stats.total_cards = st.add_results.count true →
      ((process_cards addFn st cards).1).stats.total_cards =
        ((process_cards addFn st cards).1).add_results.count true := by
  intro cards
  induction cards with
  | nil => intro st h; simpa [process_cards] using h
  | cons c rest ih =>
    intro st h
    by_cases hc : c.word ∈ st.processed_words
    · rw [show process_cards addFn st (c :: rest) =
          process_cards addFn
            { st with
              stats := { st.stats with duplicates := st.stats.duplicates + 1 }
              processed_words := st.processed_words } rest by
        simp [process_cards, try_remember, hc]]
      exact ih _ (by simpa using h)
    · cases hr : addFn st.sink c with
      | error e0 =>
        rw [show process_cards addFn st (c :: rest) =
            ({ st with
                processed_words := c.word :: st.processed_words
                sink_adds := st.sink_adds ++ [c] }, some e0) by
          simp [process_cards, try_remember, hc, hr]]
        simpa using h
      | ok p =>
        obtain ⟨added, sink'⟩ := p
        rw [show process_cards addFn st (c :: rest) =
            process_cards addFn
              { st with
                processed_words := c.word :: st.processed_words
                sink := sink'
                sink_adds := st.sink_adds ++ [c]
                add_results := st.add_results ++ [added]
                stats :=
                  if added then { st.stats with total_cards := st.stats.total_cards + 1 }
                  else st.stats } rest by
          simp [process_cards, try_remember, hc, hr]]
        apply ih
        cases added <;> simp [List.count_append, h]

/-- The counting invariant carried through the whole paging loop. -/
theorem process_loop_count_inv {σ : Type}
    {addFn : σ → VocabularyCard → Except DuoloadError (Bool × σ)} :
    ∀ (responses : List (Except DuoloadError DuocardsResponse)) (pl : Option Nat)
      (pc : Nat) (st : IterState σ),
      st.stats.total_cards = st.add_results.count true →
      ((process_loop addFn pl responses pc st).state).stats.total_cards =
        ((process_loop addFn pl responses pc st).state).add_results.count true := by
  intro responses
  induction responses with
  | nil =>
    intro pl pc st h
    cases hsc : should_continue pl (pc + 1) with
    | false =>
      rw [show process_loop addFn pl [] pc st = LoopOutcome.done st by
        simp [process_loop, hsc]]
      simpa [LoopOutcome.state] using h
    | true =>
      rw [show process_loop addFn pl [] pc st = LoopOutcome.exhausted st by
        simp [process_loop, hsc]]
      simpa [LoopOutcome.state] using h
  | cons r rs ih =>
    intro pl pc st h
    cases hsc : should_continue pl (pc + 1) with
    | false =>
      rw [show process_loop addFn pl (r :: rs) pc st = LoopOutcome.done st by
        unfold process_loop; rw [hsc]; simp]
      simpa [LoopOutcome.state] using h
    | true =>
      cases r with
      | error e0 =>
        rw [show process_loop addFn pl (Except.error e0 :: rs) pc st =
            LoopOutcome.failed e0 { st with fetch_count := st.fetch_count + 1 } by
          simp [process_loop, hsc]]
        simpa [LoopOutcome.state] using h
      | ok resp =>
        rcases hpc : process_cards addFn { st with fetch_count := st.fetch_count + 1 }
          (convert_to_vocabulary_cards resp) with ⟨st2, errOpt⟩
        have h2 : st2.stats.total_cards = st2.add_results.count true := by
          have hinv := @process_cards_count_inv σ addFn
            (convert_to_vocabulary_cards resp)
            { st with fetch_count := st.fetch_count + 1 } (by simpa using h)
          rw [hpc] at hinv
          simpa using hinv
        cases errOpt with
        | some e1 =>
          rw [show process_loop addFn pl (Except.ok resp :: rs) pc st =
              LoopOutcome.failed e1 st2 by simp [process_loop, hsc, hpc]]
          simpa [LoopOutcome.state] using h2
        | none =>
          cases hnext : resp.data.node.cards.page_info.has_next_page with
          | false =>
            rw [show process_loop addFn pl (Except.ok resp :: rs) pc st =
                LoopOutcome.done st2 by simp [process_loop, hsc, hpc, hnext]]
            simpa [LoopOutcome.state] using h2
          | true =>
            rw [show process_loop addFn pl (Except.ok resp :: rs) pc st =
                process_loop addFn pl rs (pc + 1)
                  { st2 with cursor := resp.data.node.cards.page_info.end_cursor } by
              simp [process_loop, hsc, hpc, hnext]]
            exact ih pl (pc + 1) _ (by simpa using h2)

/-- C7: when the sink's add returns false for a non-duplicate record,
the pipeline counts neither total_cards nor duplicates, treats the
rejection as no error, and continues with the remaining records in the
same page; and across any whole run, total_cards equals exactly the
number of add calls the sink answered with true. -/
theorem c7_sink_rejection_not_counted {σ : Type}
    (addFn : σ → VocabularyCard → Except DuoloadError (Bool × σ))
    (writeFn : σ → Except DuoloadError Unit) (page_limit : Option Nat)
    (responses : List (Except DuoloadError DuocardsResponse)) (sink0 : σ)
    (st : IterState σ) (card : VocabularyCard) (rest : List VocabularyCard) (s' : σ)
    (hnew : card.word ∉ st.processed_words)
    (hadd : addFn st.sink card = Except.ok (false, s')) :
    process_cards addFn st (card :: rest) =
      process_cards addFn
        { st with
          processed_words := card.word :: st.processed_words
          sink := s'
          sink_adds := st.sink_adds ++ [card]
          add_results := st.add_results ++ [false] } rest ∧
    (process addFn writeFn page_limit responses sink0).state.stats.total_cards =
      ((process addFn writeFn page_limit responses sink0).state.add_results).count true := by
  constructor
  · simp [process_cards, try_remember, hnew, hadd]
  · rw [process_state_eq]
    exact process_loop_count_inv responses page_limit 0 (initState sink0) (by simp [initState])

/-- Witness for C7: a sink that already holds "hello" rejects the record
while the pipeline's own dedup set does not contain it; the record is
handed to the sink, marked seen, recorded as not-added, and processing
would continue with the rest of the page. -/
theorem c7_sink_rejection_not_counted_witness :
    process_cards json_add
        { stats := { total_cards := 0, duplicates := 0 }
          processed_words := []
          sink :=
            { cards :=
                [{ word := "hello", translation := "hola", «example» := none,
                   status := LearningStatus.new }]
              existing_words := ["hello"] }
          sink_adds := []
          add_results := []
          fetch_count := 0
          cursor := none }
        [{ word := "hello", translation := "hola", «example» := none,
           status := LearningStatus.new }] =
      process_cards json_add
        { stats := { total_cards := 0, duplicates := 0 }
          processed_words := ["hello"]
          sink :=
            { cards :=
                [{ word := "hello", translation := "hola", «example» := none,
                   status := LearningStatus.new }]
              existing_words := ["hello"] }
          sink_adds :=
            [{ word := "hello", translation := "hola", «example» := none,
               status := LearningStatus.new }]
          add_results := [false]
          fetch_count := 0
          cursor := none } [] := by
  have h := c7_sink_rejection_not_counted json_add write_ok none []
    { cards := [], existing_words := [] }
    { stats := { total_cards := 0, duplicates := 0 }
      processed_words := []
      sink :=
        { cards :=
            [{ word := "hello", translation := "hola", «example» := none,
               status := LearningStatus.new }]
          existing_words := ["hello"] }
      sink_adds := []
      add_results := []
      fetch_count := 0
      cursor := none }
    { word := "hello", translation := "hola", «example» := none, status := LearningStatus.new }
    []
    { cards :=
        [{ word := "hello", translation := "hola", «example» := none,
           status := LearningStatus.new }]
      existing_words := ["hello"] }
    (by decide) rfl
  exact h.1

/-- C4 (failing evaluation): the identifier
"RGVjazpEZWNrOjQ2ZjJiOWVkLWFiZjMtNGJkOC1hMDU0LTY4ZGZhNGE0MjAzZQ==" is
valid base64 and decodes to the UTF-8 text
"Deck:Deck:46f2b9ed-abf3-4bd8-a054-68dfa4a4203e"; the remainder after
the single "Deck:" prefix, "Deck:46f2b9ed-abf3-4bd8-a054-68dfa4a4203e",
does not parse as a UUID — so the claim requires the InvalidUuid error —
yet validate_deck_id accepts the identifier, because trim_start_matches
removes every leading "Deck:" repetition rather than only the first. -/
theorem c4_validator_accepts_repeated_deck_marker :
    validate_deck_id "RGVjazpEZWNrOjQ2ZjJiOWVkLWFiZjMtNGJkOC1hMDU0LTY4ZGZhNGE0MjAzZQ==" =
      Except.ok () ∧
    utf8Decode
        ((base64Decode "RGVjazpEZWNrOjQ2ZjJiOWVkLWFiZjMtNGJkOC1hMDU0LTY4ZGZhNGE0MjAzZQ==").getD [])
      = some ("Deck:Deck:46f2b9ed-abf3-4bd8-a054-68dfa4a4203e".data) ∧
    uuidParseStr ("Deck:46f2b9ed-abf3-4bd8-a054-68dfa4a4203e".data) = none :=
  ⟨rfl, rfl, rfl⟩

/-- C8: for every accumulated Anki builder state and every outcome of
the underlying package-file write, writing to a stream (writer)
destination fails with the AnkiOutputNotSupported kind and leaves the
stream's content untouched, while writing to a file destination never
returns that kind. -/
theorem c8_anki_writer_not_supported (b : AnkiPackageBuilder)
    (file_write_result : Except String Unit) (writer_bytes : List Nat) (path : String) :
    b.write OutputDestination.writer file_write_result writer_bytes =
      (Except.error DuoloadError.ankiOutputNotSupported, writer_bytes) ∧
    (b.write (OutputDestination.file path) file_write_result writer_bytes).1 ≠
      Except.error DuoloadError.ankiOutputNotSupported := by
  refine ⟨rfl, ?_⟩
  cases file_write_result <;> simp [AnkiPackageBuilder.write]

/-- C9: when the deck identifier fails validation, main returns its
Api-wrapped error without the pipeline ever consulting the record
source (the outcome is the same for every scripted response list), and
DuocardsClient::fetch_page itself re-validates before any network
activity: it returns the validation error with no request issued,
whatever the network would have answered. -/
theorem c9_no_fetch_after_failed_validation {σ : Type} (deck_id : String) (e : DeckIdError)
    (h : validate_deck_id deck_id = Except.error e)
    (addFn : σ → VocabularyCard → Except DuoloadError (Bool × σ))
    (writeFn : σ → Except DuoloadError Unit) (page_limit : Option Nat) (sink0 : σ) :
    (∀ responses, main_run deck_id addFn writeFn page_limit responses sink0 =
        Except.error DuoloadError.api) ∧
    (∀ net, client_fetch_page deck_id net = (Except.error (DuoloadError.deckId e), false)) := by
  constructor
  · intro responses
    simp [main_run, h]
  · intro net
    simp [client_fetch_page, h]

/-- Witness for C9 at the identifier "not-base64!" (InvalidBase64): no
response list changes main's outcome, and fetch_page issues no request. -/
theorem c9_no_fetch_after_failed_validation_witness :
    main_run "not-base64!" json_add write_ok none [] { cards := [], existing_words := [] } =
      Except.error DuoloadError.api ∧
    client_fetch_page "not-base64!" (Except.error DuoloadError.api) =
      (Except.error (DuoloadError.deckId DeckIdError.invalidBase64), false) :=
  ⟨(c9_no_fetch_after_failed_validation "not-base64!" DeckIdError.invalidBase64 rfl
      json_add write_ok none { cards := [], existing_words := [] }).1 [],
   (c9_no_fetch_after_failed_validation "not-base64!" DeckIdError.invalidBase64 rfl
      json_add write_ok none { cards := [], existing_words := [] }).2
     (Except.error DuoloadError.api)⟩

/-- C10: for both concrete sinks, adding a card whose word is not yet
recorded stores the card (the JSON builder appends the card, the Anki
builder appends the converted note), records the word, and returns
true; adding a card whose word is already recorded returns false and
leaves the builder's entire state unchanged. -/
theorem c10_builders_first_add_then_reject (jb : JsonOutputBuilder) (ab : AnkiPackageBuilder)
    (card : VocabularyCard) :
    (card.word ∉ jb.existing_words →
      jb.add_note card =
        (true, { cards := jb.cards ++ [card], existing_words := card.word :: jb.existing_words })) ∧
    (card.word ∈ jb.existing_words → jb.add_note card = (false, jb)) ∧
    (card.word ∉ ab.existing_words →
      ab.add_note card =
        (true,
          { deck := { notes := ab.deck.notes ++ [(VocabularyNote.fromCard card).to_anki_note] }
            existing_words := card.word :: ab.existing_words })) ∧
    (card.word ∈ ab.existing_words → ab.add_note card = (false, ab)) := by
  refine ⟨fun h => ?_, fun h => ?_, fun h => ?_, fun h => ?_⟩ <;>
    simp [JsonOutputBuilder.add_note, AnkiPackageBuilder.add_note, h]

/-- Witness for C10: a fresh JSON builder accepts "hello"; a JSON
builder that has recorded "hello" rejects it unchanged; likewise for the
Anki builder. -/
theorem c10_builders_first_add_then_reject_witness :
    JsonOutputBuilder.add_note { cards := [], existing_words := [] }
        { word := "hello", translation := "hola", «example» := none, status := LearningStatus.new } =
      (true,
        { cards :=
            [{ word := "hello", translation := "hola", «example» := none,
               status := LearningStatus.new }]
          existing_words := ["hello"] }) ∧
    JsonOutputBuilder.add_note { cards := [], existing_words := ["hello"] }
        { word := "hello", translation := "hola", «example» := none, status := LearningStatus.new } =
      (false, { cards := [], existing_words := ["hello"] }) ∧
    AnkiPackageBuilder.add_note { deck := { notes := [] }, existing_words := ["hello"] }
        { word := "hello", translation := "hola", «example» := none, status := LearningStatus.new } =
      (false, { deck := { notes := [] }, existing_words := ["hello"] }) := by
  refine ⟨?_, ?_, ?_⟩
  · have h := c10_builders_first_add_then_reject { cards := [], existing_words := [] }
      { deck := { notes := [] }, existing_words := [] }
      { word := "hello", translation := "hola", «example» := none, status := LearningStatus.new }
    exact h.1 (by decide)
  · have h := c10_builders_first_add_then_reject { cards := [], existing_words := ["hello"] }
      { deck := { notes := [] }, existing_words := [] }
      { word := "hello", translation := "hola", «example» := none, status := LearningStatus.new }
    exact h.2.1 (by decide)
  · have h := c10_builders_first_add_then_reject { cards := [], existing_words := [] }
      { deck := { notes := [] }, existing_words := ["hello"] }
      { word := "hello", translation := "hola", «example» := none, status := LearningStatus.new }
    exact h.2.2.2 (by decide)

end Theorems

end Duoload
